import Mathlib

/-!
Verification of the Study-Buddy context-assembly core.

This file gives a shallow embedding, in Lean 4, of the core algorithms of the
Study-Buddy reading application: the document-structuring pipeline
(`analyzeStructure`, `extractConcepts`, `generateDocumentSummary`), the context
builder (`buildAssistantContext` with its helpers `extractVisibleContext`,
`extractChapterSlice`, `matchChapterByPage`, `extractPdfRange`, `trimText`,
`clampPage`), and the assistant orchestrator (`generate` with its fallback
helpers).  JavaScript strings are modelled as Lean `String` (lists of
characters), JavaScript numbers appearing in page arithmetic are modelled as
exact rationals, with an explicit `JSNum` type (finite rational or NaN) where
NaN behaviour matters.  Effects are made explicit: the random id generator
becomes an id-supply parameter, the wall clock becomes a string parameter, and
the remote completion call becomes an `Except` parameter.
-/

namespace StudyBuddy

/-! ## JavaScript string primitives -/

/-- Whitespace recognised by JavaScript `trim` / `\s`. -/
def isJsSpace (c : Char) : Bool :=
  c = ' ' || c = '\t' || c = '\n' || c = '\r' ||
  c = '\x0b' || c = '\x0c' || c = ' ' || c = '﻿'

/-- Trim leading and trailing JavaScript whitespace from a character list. -/
def trimChars (l : List Char) : List Char :=
  ((l.dropWhile isJsSpace).reverse.dropWhile isJsSpace).reverse

/-- JavaScript `String.prototype.trim`. -/
def jsTrim (s : String) : String :=
  ⟨trimChars s.data⟩

/-- JavaScript `s.slice(a, b)` for non-negative indices: the characters in
`[a, b)`, clamped to the string. -/
def jsSlice (s : String) (a b : Nat) : String :=
  ⟨(s.data.drop a).take (b - a)⟩

/-- JavaScript `s.substring(a, b)` for non-negative indices: like `slice` but
swapping the endpoints when given in reverse order. -/
def jsSubstring (s : String) (a b : Nat) : String :=
  jsSlice s (min a b) (max a b)

/-- JavaScript `s.substring(a, b)` with possibly negative (integer) indices:
each index is clamped into `[0, s.length]` first. -/
def jsSubstringI (s : String) (a b : Int) : String :=
  jsSubstring s (min (max a 0) (s.length : Int)).toNat (min (max b 0) (s.length : Int)).toNat

/-- JavaScript `s.split('\n')` on a character list.  Always returns at least
one (possibly empty) piece. -/
def splitOnNl : List Char → List (List Char)
  | [] => [[]]
  | c :: cs =>
    if c = '\n' then [] :: splitOnNl cs
    else
      match splitOnNl cs with
      | [] => [[c]]
      | piece :: rest => (c :: piece) :: rest

/-- The maximal whitespace-separated words of a character list, in order
(JavaScript `text.split(/\s+/).filter(w => w.length > 0)` on trimmed text). -/
def wordsOf : List Char → List (List Char)
  | [] => []
  | c :: cs =>
    if isJsSpace c then wordsOf cs
    else
      let w := cs.takeWhile (fun x => !isJsSpace x)
      (c :: w) :: wordsOf (cs.drop w.length)
termination_by l => l.length
decreasing_by
  · simp only [List.length_cons]; omega
  · simp only [List.length_cons, List.length_drop]; omega

/-- `countWords` from the document processor:
`text.trim().split(/\s+/).filter(word => word.length > 0).length`. -/
def countWords (text : String) : Nat :=
  (wordsOf (jsTrim text).data).length

/-- Deterministic decimal rendering of a rational (used where the source
string-interpolates a page number). -/
def ratToStr (q : ℚ) : String :=
  if q.den = 1 then toString q.num else toString q.num ++ "/" ++ toString q.den

/-! ## JavaScript numbers where NaN matters -/

/-- A JavaScript number as used in page arithmetic: either a finite (exact)
numeric value or `NaN`. -/
inductive JSNum where
  | nan : JSNum
  | fin : ℚ → JSNum
deriving DecidableEq

/-- JavaScript `Math.floor` (`NaN` propagates). -/
def jsFloor : JSNum → JSNum
  | JSNum.nan => JSNum.nan
  | JSNum.fin q => JSNum.fin (q.floor : ℤ)

/-- JavaScript `Math.max` on two numbers (`NaN` propagates). -/
def jsMax : JSNum → JSNum → JSNum
  | JSNum.fin a, JSNum.fin b => JSNum.fin (max a b)
  | _, _ => JSNum.nan

/-- JavaScript `Math.min` on two numbers (`NaN` propagates). -/
def jsMin : JSNum → JSNum → JSNum
  | JSNum.fin a, JSNum.fin b => JSNum.fin (min a b)
  | _, _ => JSNum.nan

/-- JavaScript `<=` on numbers: any comparison with `NaN` is `false`. -/
def jsLe : JSNum → JSNum → Bool
  | JSNum.fin a, JSNum.fin b => decide (a ≤ b)
  | _, _ => false

/-- `clampPage` from the context builder:
`if (maxPage <= 0) return 1; return Math.min(Math.max(1, Math.floor(page)), maxPage);`. -/
def clampPage (page maxPage : JSNum) : JSNum :=
  if jsLe maxPage (JSNum.fin 0) then JSNum.fin 1
  else jsMin (jsMax (JSNum.fin 1) (jsFloor page)) maxPage

/-- `clampPage` specialised to a finite requested page and a natural page
count, returning the clamped page as a natural number (this is how every call
site of `clampPage` in the source consumes its result: as an array index). -/
def clampPageFin (page : ℚ) (maxPage : Nat) : Nat :=
  match clampPage (JSNum.fin page) (JSNum.fin (maxPage : ℚ)) with
  | JSNum.fin q => q.floor.toNat
  | JSNum.nan => 0

/-! ## Data model (src/types/index.ts, fields used by the core) -/

/-- `Document.type`. -/
inductive DocType where
  | pdf
  | epub
  | txt
  | docx
deriving DecidableEq

/-- `Chapter`: a contiguous text span. -/
structure Chapter where
  id : String
  title : String
  startPosition : Nat
  endPosition : Nat
  pageStart : Option Nat := none
  pageEnd : Option Nat := none
  wordCount : Nat
  concepts : List String
deriving DecidableEq

/-- `Concept`: a candidate key term.  `firstMention` is an `Int` because
JavaScript `indexOf` yields `-1` when absent. -/
structure Concept where
  id : String
  term : String
  definition : String
  context : String
  relatedConcepts : List String
  importance : Nat
  firstMention : Int
  frequency : Nat
deriving DecidableEq

/-- `ChapterSummary`. -/
structure ChapterSummary where
  chapterId : String
  title : String
  synopsis : String
  keywords : List String
deriving DecidableEq

/-- `DocumentSummary`.  `generatedAt` is the ISO timestamp string recorded at
generation time. -/
structure DocumentSummary where
  gist : String
  sections : List ChapterSummary
  keywords : List String
  generatedAt : String
deriving DecidableEq

/-- `DocumentMetadata` (optional structural hints). -/
structure DocumentMetadata where
  author : Option String := none
  subject : Option String := none
  keywords : Option (List String) := none
  language : Option String := none
  totalPages : Option Nat := none
  pageOffsets : Option (List Nat) := none
deriving DecidableEq

/-- `Document` (the fields consumed by the core; binary payload fields are
outside the embedding). -/
structure Document where
  id : String
  title : String
  content : String
  type : DocType
  totalWords : Nat
  totalPages : Option Nat := none
  chapters : List Chapter
  concepts : List Concept
  metadata : Option DocumentMetadata := none
  summary : Option DocumentSummary := none
deriving DecidableEq

/-- `Reference` (fields set by the orchestrator's reference extractor). -/
structure Reference where
  text : String
  position : Int
  confidence : ℚ
deriving DecidableEq

/-- `AIResponse`: one query/response exchange.  `timestamp` models the wall
clock as an opaque string. -/
structure AIResponse where
  id : String
  query : String
  response : String
  context : String
  timestamp : String
  references : List Reference
deriving DecidableEq

/-! ## Context builder (src/assistant/contextBuilder.ts) -/

/-- `ContextBuilderOptions`.  `useExtendedContext` keeps its source-level
optionality; `buildAssistantContext` defaults it to `false`. -/
structure ContextBuilderOptions where
  document : Option Document := none
  selectedText : Option String := none
  currentPage : Option ℚ := none
  extraContext : Option String := none
  references : Option (List Reference) := none
  useExtendedContext : Option Bool := none
deriving DecidableEq

/-- `VisibleSectionOptions`. -/
structure VisibleSectionOptions where
  radiusPages : Nat
  maxChars : Nat
deriving DecidableEq

/-- `ChapterSliceOptions`. -/
structure ChapterSliceOptions where
  maxChars : Nat
deriving DecidableEq

/-- JavaScript truthiness of an optional string (`undefined` and `""` are
falsy). -/
def strTruthy : Option String → Bool
  | some s => !(s == "")
  | none => false

/-- `trimText` from the context builder: text within budget is returned
unchanged, otherwise the first `maxChars - 3` characters are kept, trimmed,
and `"..."` is appended. -/
def trimText (text : String) (maxChars : Nat) : String :=
  if text.length ≤ maxChars then text
  else jsTrim (jsSlice text 0 (maxChars - 3)) ++ "..."

/-- `matchChapterByPage`: direct containment when a chapter carries explicit
page bounds, otherwise linear interpolation of its character span. -/
def matchChapterByPage (doc : Document) (currentPage : Option ℚ) : Option Chapter :=
  if doc.chapters = [] then none
  else
    match currentPage with
    | none => doc.chapters.head?
    | some p =>
      doc.chapters.find? (fun chapter =>
        match chapter.pageStart, chapter.pageEnd with
        | some ps, some pe => decide ((ps : ℚ) ≤ p ∧ p ≤ (pe : ℚ))
        | _, _ =>
          if doc.content = "" ∨ doc.totalPages = none ∨ doc.totalPages = some 0 then false
          else
            let totalPages := doc.totalPages.getD 0
            let approxStartPage : ℤ :=
              ((chapter.startPosition : ℚ) / (max 1 doc.content.length : ℚ) * (totalPages : ℚ)).floor
            let approxEndPage : ℤ :=
              ((chapter.endPosition : ℚ) / (max 1 doc.content.length : ℚ) * (totalPages : ℚ)).ceil
            decide ((approxStartPage : ℚ) ≤ p ∧ p ≤ (approxEndPage : ℚ)))

/-- `findChapterSummary`: the synopsis of the section matching the current
chapter, if any. -/
def findChapterSummary (doc : Document) (currentPage : Option ℚ) : Option String :=
  match doc.summary with
  | none => none
  | some summary =>
    if summary.sections = [] then none
    else
      match currentPage with
      | none => summary.sections.head?.map ChapterSummary.synopsis
      | some _ =>
        match matchChapterByPage doc currentPage with
        | none => none
        | some matchedChapter =>
          (summary.sections.find? (fun section' => section'.chapterId == matchedChapter.id)).map
            ChapterSummary.synopsis

/-- `extractPdfRange`: slice the content between the offsets of two clamped
page numbers, trimmed to budget; `undefined` (here `none`) when the range is
empty or the offset table is unusable. -/
def extractPdfRange (doc : Document) (startPage endPage : Nat) (maxChars : Nat) :
    Option String :=
  match doc.metadata.bind DocumentMetadata.pageOffsets with
  | none => none
  | some pageOffsets =>
    if doc.content = "" ∨ pageOffsets = [] then none
    else
      let availablePages := pageOffsets.length - 1
      if availablePages = 0 then none
      else
        let safeStartPage := clampPageFin (startPage : ℚ) availablePages
        let safeEndPage := clampPageFin (endPage : ℚ) availablePages
        if safeEndPage < safeStartPage then none
        else
          let startOffset := (pageOffsets.get? (safeStartPage - 1)).getD 0
          let endOffset := (pageOffsets.get? safeEndPage).getD doc.content.length
          if endOffset ≤ startOffset then none
          else some (trimText (jsSlice doc.content startOffset endOffset) maxChars)

/-- The PDF page-offset attempt shared by `extractVisibleContext` and
`extractChapterSlice`: the source computes a slice and falls through when the
slice is falsy (absent or empty). -/
def pdfAttempt (o : Option String) : Option String :=
  match o with
  | some s => if s = "" then none else some s
  | none => none

/-- `extractVisibleContext`: a ±`radiusPages` window around the clamped
current page for paginated documents, otherwise the matched chapter's span,
otherwise a leading slice of raw content (or the gist when there is no
content). -/
def extractVisibleContext (doc : Document) (currentPage : Option ℚ)
    (options : VisibleSectionOptions) : Option String :=
  if doc.content = "" then
    match doc.summary with
    | some summary => if summary.gist = "" then none else some (trimText summary.gist options.maxChars)
    | none => none
  else
    let pdfSlice : Option String :=
      if doc.type = DocType.pdf ∧ (doc.metadata.bind DocumentMetadata.pageOffsets).getD [] ≠ [] then
        let availablePages := ((doc.metadata.bind DocumentMetadata.pageOffsets).getD []).length - 1
        if availablePages > 0 then
          let targetPage := clampPageFin (currentPage.getD 1) availablePages
          let startPage := max 1 (targetPage - options.radiusPages)
          let endPage := min availablePages (targetPage + options.radiusPages)
          pdfAttempt (extractPdfRange doc startPage endPage options.maxChars)
        else none
      else none
    match pdfSlice with
    | some s => some s
    | none =>
      match currentPage with
      | none => some (trimText doc.content options.maxChars)
      | some _ =>
        match matchChapterByPage doc currentPage with
        | none => some (trimText doc.content options.maxChars)
        | some chapter =>
          let windowStart := max 0 chapter.startPosition
          let windowEnd := min doc.content.length chapter.endPosition
          some (trimText (jsSlice doc.content windowStart windowEnd) options.maxChars)

/-- `extractChapterSlice`: the current (or next) page's slice for paginated
documents, otherwise the matched chapter's span, trimmed to budget. -/
def extractChapterSlice (doc : Document) (currentPage : Option ℚ)
    (options : ChapterSliceOptions) : Option String :=
  if doc.content = "" then
    match findChapterSummary doc currentPage with
    | some chapterSummary =>
      if chapterSummary = "" then none else some (trimText chapterSummary options.maxChars)
    | none => none
  else
    if doc.type = DocType.pdf ∧ (doc.metadata.bind DocumentMetadata.pageOffsets).getD [] ≠ [] then
      let availablePages := ((doc.metadata.bind DocumentMetadata.pageOffsets).getD []).length - 1
      let pdfSlice : Option String :=
        if availablePages > 0 then
          let targetPage := clampPageFin (currentPage.getD 1) availablePages
          pdfAttempt
            (extractPdfRange doc targetPage (min availablePages (targetPage + 1)) options.maxChars)
        else none
      match pdfSlice with
      | some s => some s
      | none =>
        match findChapterSummary doc currentPage with
        | some chapterSummary =>
          if chapterSummary = "" then none else some (trimText chapterSummary options.maxChars)
        | none => none
    else
      match matchChapterByPage doc currentPage with
      | none => none
      | some chapter =>
        some (trimText (jsSlice doc.content chapter.startPosition chapter.endPosition)
          options.maxChars)

/-- One conditional segment: emitted when the payload is truthy. -/
def segOpt (header : String) (payload : Option String) : List String :=
  match payload with
  | some s => if s = "" then [] else [header ++ s]
  | none => []

/-- The ordered segment list assembled by `buildAssistantContext`. -/
def buildSegments (opts : ContextBuilderOptions) : List String :=
  let useExtendedContext := opts.useExtendedContext.getD false
  (match opts.document with
   | none => []
   | some doc =>
     ["DOCUMENT: \"" ++ doc.title ++ "\""]
     ++ (match doc.metadata.bind DocumentMetadata.subject with
         | some subject => if subject = "" then [] else ["SUBJECT: " ++ subject]
         | none => [])
     ++ (match doc.metadata.bind DocumentMetadata.keywords with
         | some keywords =>
           if keywords = [] then []
           else ["KEYWORDS: " ++ String.intercalate ", " (keywords.take 6)]
         | none => [])
     ++ (match doc.summary with
         | some summary =>
           if summary.gist = "" then []
           else ["DOCUMENT GIST:\n" ++ trimText summary.gist 600]
         | none => [])
     ++ (match opts.currentPage with
         | some page => ["CURRENT PAGE: " ++ ratToStr page]
         | none => []))
  ++ (let visibleContext :=
        match opts.document with
        | some doc => extractVisibleContext doc opts.currentPage ⟨1, 900⟩
        | none => none
      segOpt "VISIBLE CONTEXT:\n" visibleContext)
  ++ (match opts.selectedText with
      | some selectedText =>
        if jsTrim selectedText = "" then []
        else ["FOCUSED TEXT:\n\"" ++ jsTrim selectedText ++ "\""]
      | none => [])
  ++ (let chapterContext :=
        match opts.document with
        | some doc =>
          extractChapterSlice doc opts.currentPage ⟨if useExtendedContext then 1400 else 600⟩
        | none => none
      segOpt "CHAPTER CONTEXT:\n" chapterContext)
  ++ (match opts.document with
      | some doc =>
        if useExtendedContext then
          let summaries :=
            doc.summary.map (fun summary =>
              String.intercalate "\n"
                (summary.sections.map (fun section' =>
                  "• " ++ section'.title ++ ": " ++ trimText section'.synopsis 160)))
          if strTruthy summaries then
            ["CHAPTER SUMMARIES:\n" ++ summaries.getD ""]
          else if doc.content ≠ "" then
            ["DOCUMENT PREVIEW:\n" ++ trimText doc.content 2000]
          else []
        else []
      | none => [])
  ++ (match opts.references with
      | some references =>
        if references = [] then []
        else
          ["REFERENCES:\n" ++
            String.intercalate "\n"
              ((references.take 3).enum.map
                (fun p => toString (p.1 + 1) ++ ". " ++ p.2.text))]
      | none => [])
  ++ (match opts.extraContext with
      | some extraContext =>
        if jsTrim extraContext = "" then []
        else ["ADDITIONAL CONTEXT:\n" ++ jsTrim extraContext]
      | none => [])

/-- `buildAssistantContext`: the ordered segments joined by blank lines and
trimmed. -/
def buildAssistantContext (opts : ContextBuilderOptions) : String :=
  jsTrim (String.intercalate "\n\n" (buildSegments opts))

/-! ## Document structuring pipeline (src/hooks/useDocumentProcessor.ts) -/

/-- Case-insensitive "chapter" line-start test (the `Chapter|CHAPTER` regex
alternatives under the `i` flag). -/
def startsWithChapterCI (t : List Char) : Bool :=
  (t.take 7).map Char.toLower == "chapter".data

/-- The numeric chapter-marker alternatives `\d+\.` and `\d+\s`: a non-empty
maximal digit run followed by a dot or a whitespace character. -/
def startsWithNumericMarker (t : List Char) : Bool :=
  let digits := t.takeWhile Char.isDigit
  !(digits == []) &&
    (match t.drop digits.length with
     | c :: _ => c = '.' || isJsSpace c
     | [] => false)

/-- The chapter-marker heuristic applied to a trimmed line:
`line.match(/^(Chapter|CHAPTER|\d+\.|\d+\s)/i) && line.length < 100`. -/
def lineIsChapterMarker (t : List Char) : Bool :=
  (startsWithChapterCI t || startsWithNumericMarker t) && decide (t.length < 100)

/-- A freshly opened chapter: provisional `endPosition` is `content.length`
and the word count is filled in when the chapter is closed.  `k` is the number
of chapters opened before this one. -/
def newChapter (ids : Nat → String) (k : Nat) (t : List Char) (pos contentLength : Nat) :
    Chapter :=
  { id := ids k
    title := if t = [] then "Chapter " ++ toString (k + 1) else ⟨t⟩
    startPosition := pos
    endPosition := contentLength
    wordCount := 0
    concepts := [] }

/-- Close the most recently opened chapter (the head of the reversed
accumulator) at offset `pos`, computing its word count from its span. -/
def closeChapter (content : String) (pos : Nat) : List Chapter → List Chapter
  | [] => []
  | chapter :: rest =>
    { chapter with
      endPosition := pos
      wordCount := countWords (jsSubstring content chapter.startPosition pos) } :: rest

/-- The line scan of `analyzeStructure`.  `pos` is the running character
offset of the current line; the accumulator holds the chapters found so far in
reverse order, the most recently opened (still provisional) chapter first. -/
def chapterScan (content : String) (ids : Nat → String) :
    List (List Char) → Nat → List Chapter → List Chapter
  | [], _, acc => acc
  | l :: ls, pos, acc =>
    let t := trimChars l
    if lineIsChapterMarker t then
      chapterScan content ids ls (pos + l.length + 1)
        (newChapter ids acc.length t pos content.length :: closeChapter content pos acc)
    else chapterScan content ids ls (pos + l.length + 1) acc

/-- `analyzeStructure`: scan the lines for chapter markers; with no markers a
single "Full Document" chapter spans the content, otherwise the last chapter
is closed at `content.length`. -/
def analyzeStructure (content : String) (ids : Nat → String) : List Chapter :=
  let scanned := chapterScan content ids (splitOnNl content.data) 0 []
  if scanned = [] then
    [{ id := ids 0
       title := "Full Document"
       startPosition := 0
       endPosition := content.length
       wordCount := countWords content
       concepts := [] }]
  else
    (closeChapter content content.length scanned).reverse

/-- JavaScript word characters (`\w`). -/
def isWordChar (c : Char) : Bool :=
  c.isAlpha || c.isDigit || c = '_'

/-- Extend the first piece of a piece list with a leading character. -/
def consHead (c : Char) : List (List Char) → List (List Char)
  | [] => [[c]]
  | piece :: rest => (c :: piece) :: rest

/-- The scan behind `splitNonWord`; `inSep` records whether the previous
character belonged to the current separator run. -/
def splitNonWordGo (inSep : Bool) : List Char → List (List Char)
  | [] => [[]]
  | c :: cs =>
    if isWordChar c then consHead c (splitNonWordGo false cs)
    else if inSep then splitNonWordGo true cs
    else [] :: splitNonWordGo true cs

/-- JavaScript `s.split(/\W+/)` on a character list: pieces between maximal
runs of non-word characters (a leading run contributes an empty first
piece). -/
def splitNonWord (l : List Char) : List (List Char) :=
  splitNonWordGo false l

/-- ASCII lowercasing of a string (JavaScript `toLowerCase` on the texts the
pipeline handles). -/
def toLowerStr (s : String) : String :=
  ⟨s.data.map Char.toLower⟩

/-- Insert one occurrence of `w` into an insertion-ordered frequency table
(JavaScript `Map` update). -/
def bumpFreq (w : List Char) : List (List Char × Nat) → List (List Char × Nat)
  | [] => [(w, 1)]
  | (k, v) :: rest => if k = w then (k, v + 1) :: rest else (k, v) :: bumpFreq w rest

/-- The word-frequency table of `extractConcepts`: tokens of length > 3,
counted in first-seen order. -/
def conceptWordFreq (words : List (List Char)) : List (List Char × Nat) :=
  words.foldl (fun m w => if w.length > 3 then bumpFreq w m else m) []

/-- Stable insertion of a pair into a list sorted by descending count:
earlier-array elements stay ahead of equal-count later ones, as guaranteed for
`Array.prototype.sort` with the comparator `([,a],[,b]) => b - a`. -/
def insertDescByCount (x : List Char × Nat) : List (List Char × Nat) → List (List Char × Nat)
  | [] => [x]
  | y :: ys => if x.2 ≥ y.2 then x :: y :: ys else y :: insertDescByCount x ys

/-- Stable sort by descending count (the observable behaviour of the source's
`sort(([,a],[,b]) => b - a)`). -/
def sortDescByCount (l : List (List Char × Nat)) : List (List Char × Nat) :=
  l.foldr insertDescByCount []

/-- First index of `pat` in `s`, JavaScript `indexOf` style (`-1` when
absent). -/
def firstIndexOfAux (pat : List Char) : List Char → Nat → Option Nat
  | s, i =>
    if pat.isPrefixOf s then some i
    else
      match s with
      | [] => none
      | _ :: tl => firstIndexOfAux pat tl (i + 1)

/-- JavaScript `s.indexOf(pat)`. -/
def firstIndexOf (s pat : List Char) : Int :=
  match firstIndexOfAux pat s 0 with
  | some n => (n : Int)
  | none => -1

/-- `extractContext`: a symmetric window of `length` characters around
`position`, clamped to the text and trimmed. -/
def extractContext (text : String) (position : Int) (length : Nat) : String :=
  let start := max 0 (position - (length / 2 : Nat))
  let stop := min (text.length : Int) (position + (length / 2 : Nat))
  jsTrim (jsSubstringI text start stop)

/-- The importance assigned to a concept of the given frequency:
`Math.max(1, Math.min(10, Math.floor(frequency / 2)))`. -/
def conceptImportance (frequency : Nat) : Nat :=
  max 1 (min 10 (frequency / 2))

/-- The `forEach` of `extractConcepts`: for each retained `(term, frequency)`
pair with frequency above 2, build a `Concept`.  `k` counts the concepts
pushed so far (it indexes the id supply). -/
def buildConcepts (content : String) (ids : Nat → String) :
    List (List Char × Nat) → Nat → List Concept
  | [], _ => []
  | (term, frequency) :: rest, k =>
    if frequency > 2 then
      let firstMention := firstIndexOf (toLowerStr content).data term
      { id := ids k
        term := ⟨term⟩
        definition := "Key concept: " ++ (⟨term⟩ : String)
        context := extractContext content firstMention 200
        relatedConcepts := []
        importance := conceptImportance frequency
        firstMention := firstMention
        frequency := frequency } :: buildConcepts content ids rest (k + 1)
    else buildConcepts content ids rest k

/-- `extractConcepts`: lowercase word tokens of length > 3, frequency-ranked
(stable descending sort), top 50, retained while frequency > 2. -/
def extractConcepts (content : String) (ids : Nat → String) : List Concept :=
  let words := splitNonWord (toLowerStr content).data
  let sortedWords := (sortDescByCount (conceptWordFreq words)).take 50
  buildConcepts content ids sortedWords 0

/-! ## Summary generation (src/hooks/useDocumentProcessor.ts) -/

/-- `trimTextForSummary` (same rule as the context builder's `trimText`). -/
def trimTextForSummary (text : String) (maxChars : Nat) : String :=
  if text.length ≤ maxChars then text
  else jsTrim (jsSlice text 0 (maxChars - 3)) ++ "..."

/-- Collapse every whitespace run to a single space
(JavaScript `replace(/\s+/g, ' ')`). -/
def collapseWs : List Char → List Char
  | [] => []
  | c :: cs =>
    if isJsSpace c then ' ' :: collapseWs (cs.dropWhile isJsSpace)
    else c :: collapseWs cs
termination_by l => l.length
decreasing_by
  · have h := (List.dropWhile_sublist (l := cs) (p := isJsSpace)).length_le
    simp only [List.length_cons]
    omega
  · simp only [List.length_cons]; omega

/-- Split on blank lines (JavaScript `split(/\n{2,}/)`): a separator is a
maximal run of at least two newlines. -/
def splitBlankLines : List Char → List (List Char)
  | [] => [[]]
  | c :: cs =>
    if c = '\n' ∧ cs.head? = some '\n' then
      [] :: splitBlankLines (cs.dropWhile (fun x => x = '\n'))
    else
      match splitBlankLines cs with
      | [] => [[c]]
      | piece :: rest => (c :: piece) :: rest
termination_by l => l.length
decreasing_by
  · have h := (List.dropWhile_sublist (l := cs) (p := fun x => x = '\n')).length_le
    simp only [List.length_cons]
    omega
  · simp only [List.length_cons]; omega

/-- `splitIntoParagraphs`: blank-line delimited pieces, whitespace-collapsed,
trimmed, empties dropped. -/
def splitIntoParagraphs (content : String) : List String :=
  ((splitBlankLines content.data).map (fun piece => trimChars (collapseWs piece))).filterMap
    (fun piece => if piece = [] then none else some (⟨piece⟩ : String))

/-- The keyword token scan (JavaScript
`match(/[a-zA-Z][a-zA-Z-]{2,}/g)` on lowercased content): maximal runs of a
letter followed by at least two letters-or-hyphens. -/
def keywordTokens : List Char → List (List Char)
  | [] => []
  | c :: cs =>
    if c.isAlpha then
      let run := cs.takeWhile (fun x => x.isAlpha || x = '-')
      if run.length ≥ 2 then (c :: run) :: keywordTokens (cs.drop run.length)
      else keywordTokens cs
    else keywordTokens cs
termination_by l => l.length
decreasing_by
  · simp only [List.length_cons, List.length_drop]; omega
  · simp only [List.length_cons]; omega
  · simp only [List.length_cons]; omega

/-- The stop-word list of `extractKeywords`. -/
def stopWords : List String :=
  ["the", "and", "for", "with", "this", "that", "from", "your", "have", "about",
   "into", "been", "will", "their", "would", "there", "which", "when", "also",
   "these", "more", "using", "some", "such", "each"]

/-- `extractKeywords`: frequency-ranked lowercase tokens of length > 3,
excluding stop words, top `limit`. -/
def extractKeywords (content : String) (limit : Nat) : List String :=
  let words := keywordTokens (toLowerStr content).data
  let frequency := words.foldl
    (fun m w =>
      if ¬ stopWords.contains (⟨w⟩ : String) ∧ w.length > 3 then bumpFreq w m else m) []
  ((sortDescByCount frequency).take limit).map (fun p => (⟨p.1⟩ : String))

/-- `buildGist`: the first three paragraphs trimmed to 600 characters,
prefixed by the metadata subject when present. -/
def buildGist (content : String) (metadata : Option DocumentMetadata) : String :=
  let topParagraphs := String.intercalate "\n\n" ((splitIntoParagraphs content).take 3)
  let summary := trimTextForSummary topParagraphs 600
  match metadata.bind DocumentMetadata.subject with
  | some subject => if subject = "" then summary else subject ++ ": " ++ summary
  | none => summary

/-- `buildChapterSummary`: the chapter span's first two paragraphs trimmed to
400 characters, plus its top six keywords. -/
def buildChapterSummary (content : String) (chapter : Chapter) : ChapterSummary :=
  let text := jsSlice content chapter.startPosition chapter.endPosition
  { chapterId := chapter.id
    title := chapter.title
    synopsis := trimTextForSummary (String.intercalate "\n\n" ((splitIntoParagraphs text).take 2)) 400
    keywords := extractKeywords text 6 }

/-- `generateDocumentSummary`.  The source stamps the result with
`new Date().toISOString()`; the wall clock is the explicit `now` parameter
here. -/
def generateDocumentSummary (content : String) (chapters : List Chapter)
    (metadata : Option DocumentMetadata) (now : String) : Option DocumentSummary :=
  if jsTrim content = "" then none
  else
    some
      { gist := buildGist content metadata
        sections := chapters.map (buildChapterSummary content)
        keywords := extractKeywords content 12
        generatedAt := now }

/-! ## Assistant orchestrator (src/assistant/useAssistant.ts) -/

/-- The assistant prompt modes. -/
inductive Mode where
  | chat
  | question
  | summary
  | explanation
  | quiz
  | concept
deriving DecidableEq

/-- `AssistantGenerateArgs`. -/
structure AssistantGenerateArgs where
  query : String
  document : Option Document := none
  selectedText : Option String := none
  currentPage : Option ℚ := none
  contextText : Option String := none
  mode : Option Mode := none
  useExtendedContext : Option Bool := none

/-- `buildPromptForMode`: the prompt template prefix for each mode
(`question`, `chat` and the default pass the query through verbatim). -/
def buildPromptForMode (mode : Mode) (query : String) : String :=
  match mode with
  | Mode.summary => "Summarize clearly and concisely: " ++ query
  | Mode.explanation => "Explain the following as if to a student: " ++ query
  | Mode.quiz => "Generate a few study questions about: " ++ query
  | Mode.concept => "Extract concepts and relationships relevant to: " ++ query
  | Mode.question => query
  | Mode.chat => query

/-- Split on sentence terminators (JavaScript `split(/[.!?]+/)`): pieces
between maximal runs of `.`, `!`, `?`. -/
def isSentenceStop (c : Char) : Bool :=
  c = '.' || c = '!' || c = '?'

/-- The sentence pieces of `extractReferencesFromText`. -/
def splitSentences : List Char → List (List Char)
  | [] => [[]]
  | c :: cs =>
    if isSentenceStop c then
      [] :: splitSentences (cs.dropWhile isSentenceStop)
    else
      match splitSentences cs with
      | [] => [[c]]
      | piece :: rest => (c :: piece) :: rest
termination_by l => l.length
decreasing_by
  · have h := (List.dropWhile_sublist (l := cs) (p := isSentenceStop)).length_le
    simp only [List.length_cons]
    omega
  · simp only [List.length_cons]; omega

/-- `extractReferencesFromText`: sentences whose trimmed form exceeds 30
characters, first three, confidences `0.4 + 0.2 × index`. -/
def extractReferencesFromText (context : String) : List Reference :=
  let sentences := ((splitSentences context.data).map (fun piece => (⟨piece⟩ : String))).filter
    (fun s => (jsTrim s).length > 30)
  let top := sentences.take (min 3 sentences.length)
  top.enum.map (fun p =>
    { text := jsTrim p.2
      position := max 0 (firstIndexOf context.data p.2.data)
      confidence := (2 : ℚ) / 5 + (1 : ℚ) / 5 * p.1 })

/-- `generateOfflineNotice`: the caught error's message (or
`"unknown error"`) in a canned offline-mode notice. -/
def generateOfflineNotice (err : String) : String :=
  let msg := if err = "" then "unknown error" else err
  "Note: Falling back to offline mode (" ++ msg ++ ")."

/-- `fallbackOfflineResponse`: a deterministic local response echoing the
prompt and the computed context length. -/
def fallbackOfflineResponse (prompt : String) (context : String) : String :=
  "Temporary offline response:\n\n" ++ prompt ++ "\n\nBased on context length " ++
    toString context.length ++ " characters."

/-- `generate` from `useAssistant`.  The remote completion call is the
`remote` parameter (`Except.error` models a thrown error); the fresh response
id and the wall clock are the `newId` and `now` parameters.  Returns the
produced `AIResponse` together with the updated conversation history. -/
def generate (args : AssistantGenerateArgs) (history : List AIResponse)
    (remote : Except String String) (newId : String) (now : String) :
    AIResponse × List AIResponse :=
  let context := buildAssistantContext
    { document := args.document
      selectedText := args.selectedText
      currentPage := args.currentPage
      extraContext := args.contextText
      references := none
      useExtendedContext := args.useExtendedContext }
  let mode := args.mode.getD Mode.chat
  match remote with
  | Except.ok text =>
    let ai : AIResponse :=
      { id := newId
        query := args.query
        response := text
        context := context
        timestamp := now
        references := extractReferencesFromText context }
    (ai, history ++ [ai])
  | Except.error err =>
    let fallback := buildPromptForMode mode args.query
    let ai : AIResponse :=
      { id := newId
        query := args.query
        response := generateOfflineNotice err ++ "\n\n" ++
          fallbackOfflineResponse fallback context
        context := context
        timestamp := now
        references := [] }
    (ai, history ++ [ai])

/-! ## Sample inputs used by witnesses -/

/-- A deterministic id supply standing in for `generateId`. -/
def sampleIds : Nat → String := fun k => toString k

/-- A minimal non-PDF document whose single chapter has an empty span. -/
def emptySpanDoc : Document :=
  { id := "d"
    title := "t"
    content := "hello"
    type := DocType.txt
    totalWords := 1
    chapters := [{ id := "c", title := "T", startPosition := 0, endPosition := 0,
                   wordCount := 0, concepts := [] }]
    concepts := [] }

/-- The same document with a non-degenerate first chapter. -/
def fullSpanDoc : Document :=
  { id := "d"
    title := "t"
    content := "hello"
    type := DocType.txt
    totalWords := 1
    chapters := [{ id := "c", title := "T", startPosition := 0, endPosition := 5,
                   wordCount := 1, concepts := [] }]
    concepts := [] }

/-- A 10-page PDF document over the given content, with the page-offset table
`[0, 100, ..., 1000]`. -/
def tenPagePdf (content : String) : Document :=
  { id := "d"
    title := "t"
    content := content
    type := DocType.pdf
    totalWords := 0
    chapters := []
    concepts := []
    metadata := some { pageOffsets := some [0, 100, 200, 300, 400, 500, 600, 700, 800, 900, 1000] } }

/-- The one concept extracted from `"test test test"`. -/
def sampleConcept : Concept :=
  { id := "0"
    term := "test"
    definition := "Key concept: test"
    context := "test test test"
    relatedConcepts := []
    importance := 1
    firstMention := 0
    frequency := 3 }

/-- The adjacency relation between a chapter and its predecessor in the
reversed (most-recent-first) accumulator of the chapter scan. -/
def RevAdj (a b : Chapter) : Prop := b.endPosition = a.startPosition

/-! ## General lemmas about the string primitives -/

theorem data_mk (l : List Char) : (⟨l⟩ : String).data = l := rfl

theorem length_mk (l : List Char) : (⟨l⟩ : String).length = l.length := rfl

theorem trimChars_length_le (l : List Char) : (trimChars l).length ≤ l.length := by
  unfold trimChars
  have h1 := (List.dropWhile_sublist (l := l) (p := isJsSpace)).length_le
  have h2 := (List.dropWhile_sublist (l := (l.dropWhile isJsSpace).reverse)
    (p := isJsSpace)).length_le
  simp only [List.length_reverse] at *
  omega

theorem jsTrim_length_le (s : String) : (jsTrim s).length ≤ s.length := by
  have h : (jsTrim s).length = (trimChars s.data).length := rfl
  have h2 : s.length = s.data.length := rfl
  rw [h, h2]
  exact trimChars_length_le s.data

theorem jsSlice_length (s : String) (a b : Nat) :
    (jsSlice s a b).length = min (b - a) (s.length - a) := by
  have h : (jsSlice s a b).length = ((s.data.drop a).take (b - a)).length := rfl
  rw [h, List.length_take, List.length_drop]
  rfl

theorem trimText_of_le {s : String} {n : Nat} (h : s.length ≤ n) : trimText s n = s := by
  unfold trimText
  rw [if_pos h]

theorem trimText_of_lt {s : String} {n : Nat} (h : n < s.length) :
    trimText s n = jsTrim (jsSlice s 0 (n - 3)) ++ "..." := by
  unfold trimText
  rw [if_neg (Nat.not_le.mpr h)]

theorem trimText_length_le (s : String) (n : Nat) : (trimText s n).length ≤ max n 3 := by
  by_cases h : s.length ≤ n
  · rw [trimText_of_le h]; omega
  · rw [trimText_of_lt (Nat.not_le.mp h)]
    have h1 := jsTrim_length_le (jsSlice s 0 (n - 3))
    have h2 := jsSlice_length s 0 (n - 3)
    have h3 := String.length_append (jsTrim (jsSlice s 0 (n - 3))) "..."
    have h4 : ("..." : String).length = 3 := rfl
    omega

theorem trimText_ne_empty {s : String} (h : s ≠ "") (n : Nat) : trimText s n ≠ "" := by
  by_cases hle : s.length ≤ n
  · rw [trimText_of_le hle]; exact h
  · rw [trimText_of_lt (Nat.not_le.mp hle)]
    intro hcontra
    have h5 := congrArg String.length hcontra
    rw [String.length_append] at h5
    have h6 : ("..." : String).length = 3 := rfl
    have h7 : ("" : String).length = 0 := rfl
    omega

theorem subOfAppendLeft {x a : List Char} (b : List Char) (h : x <:+: a) : x <:+: a ++ b := by
  obtain ⟨s, t, rfl⟩ := h
  exact ⟨s, t ++ b, by simp⟩

theorem subOfAppendRight {x b : List Char} (a : List Char) (h : x <:+: b) : x <:+: a ++ b := by
  obtain ⟨s, t, rfl⟩ := h
  exact ⟨a ++ s, t, by simp⟩

/-! ## Lemmas about the chapter scan -/

theorem closeChapter_chain (content : String) (pos : Nat) {acc : List Chapter}
    (h : List.Chain' RevAdj acc) : List.Chain' RevAdj (closeChapter content pos acc) := by
  match acc with
  | [] => exact List.chain'_nil
  | [c] => exact List.chain'_singleton _
  | c :: d :: t =>
    rw [List.chain'_cons] at h
    exact List.chain'_cons.mpr ⟨h.1, h.2⟩

theorem closeChapter_cons (content : String) (pos : Nat) (c : Chapter) (t : List Chapter) :
    closeChapter content pos (c :: t) =
      { c with endPosition := pos
               wordCount := countWords (jsSubstring content c.startPosition pos) } :: t := rfl

theorem chapterScan_chain (content : String) (ids : Nat → String) :
    ∀ (ls : List (List Char)) (pos : Nat) (acc : List Chapter),
      List.Chain' RevAdj acc → List.Chain' RevAdj (chapterScan content ids ls pos acc) := by
  intro ls
  induction ls with
  | nil => intro pos acc h; exact h
  | cons l ls ih =>
    intro pos acc h
    rw [chapterScan]
    by_cases hm : lineIsChapterMarker (trimChars l)
    · simp only [hm, if_true]
      apply ih
      match acc, h with
      | [], _ => exact List.chain'_singleton _
      | c :: t, h =>
        rw [closeChapter_cons]
        refine List.chain'_cons.mpr ⟨rfl, ?_⟩
        have h2 := closeChapter_chain content pos h
        rw [closeChapter_cons] at h2
        exact h2
    · simp only [hm, if_false]
      exact ih _ _ h

/-- C1, contiguity portion: the scan's output, closed and reversed, is a
chain under document-order adjacency, and its last chapter ends at
`content.length`. -/
theorem analyzeStructure_contiguous (content : String) (ids : Nat → String) :
    List.Chain' (fun a b => a.endPosition = b.startPosition) (analyzeStructure content ids) ∧
      (analyzeStructure content ids).getLast?.map Chapter.endPosition
        = some content.length := by
  unfold analyzeStructure
  by_cases hs : chapterScan content ids (splitOnNl content.data) 0 [] = []
  · simp only [hs, if_true]
    exact ⟨List.chain'_singleton _, rfl⟩
  · simp only [hs, if_false]
    have hchain : List.Chain' RevAdj (chapterScan content ids (splitOnNl content.data) 0 []) :=
      chapterScan_chain content ids _ 0 [] List.chain'_nil
    have hclosed : List.Chain' RevAdj
        (closeChapter content content.length
          (chapterScan content ids (splitOnNl content.data) 0 [])) :=
      closeChapter_chain content content.length hchain
    constructor
    · rw [List.chain'_reverse]
      exact hclosed
    · rw [List.getLast?_reverse]
      match hmatch : chapterScan content ids (splitOnNl content.data) 0 [] with
      | [] => exact absurd hmatch hs
      | c :: t => rw [closeChapter_cons]; rfl

/-- C1 fails as stated: a document with a preamble line before its first
chapter marker yields a first chapter starting at offset 6, not 0. -/
theorem analyzeStructure_first_start_not_zero :
    ((analyzeStructure "intro\nChapter 1" sampleIds).map Chapter.startPosition = [6]) ∧
      (6 : Nat) ≠ 0 := by
  constructor
  · decide
  · decide

/-! ## C8: no markers means one full-document chapter -/

theorem chapterScan_of_no_marker (content : String) (ids : Nat → String) :
    ∀ (ls : List (List Char)) (pos : Nat),
      (∀ l ∈ ls, lineIsChapterMarker (trimChars l) = false) →
      chapterScan content ids ls pos [] = [] := by
  intro ls
  induction ls with
  | nil => intro pos _; rfl
  | cons l ls ih =>
    intro pos h
    rw [chapterScan]
    have hl : lineIsChapterMarker (trimChars l) = false := h l (by simp)
    simp only [hl, Bool.false_eq_true, if_false]
    exact ih _ (fun x hx => h x (by simp [hx]))

/-- C8: when no line of the document matches the chapter-marker heuristic,
`analyzeStructure` produces exactly one chapter, titled "Full Document",
spanning the whole content. -/
theorem analyzeStructure_no_marker (content : String) (ids : Nat → String)
    (h : ∀ l ∈ splitOnNl content.data, lineIsChapterMarker (trimChars l) = false) :
    analyzeStructure content ids =
      [{ id := ids 0
         title := "Full Document"
         startPosition := 0
         endPosition := content.length
         wordCount := countWords content
         concepts := [] }] := by
  unfold analyzeStructure
  rw [chapterScan_of_no_marker content ids _ 0 h]
  rfl

/-- Witness for C8 at a concrete marker-free document. -/
theorem analyzeStructure_no_marker_witness :
    analyzeStructure "hello world\nsecond line" sampleIds =
      [{ id := sampleIds 0
         title := "Full Document"
         startPosition := 0
         endPosition := ("hello world\nsecond line" : String).length
         wordCount := countWords "hello world\nsecond line"
         concepts := [] }] :=
  analyzeStructure_no_marker "hello world\nsecond line" sampleIds (by decide)

/-! ## C2: trimText -/

/-- C2 fails as stated: `"ab cdef"` exceeds a budget of 6, yet the result has
length 5, not exactly 6, because the kept slice is whitespace-trimmed before
`"..."` is appended. -/
theorem trimText_length_counterexample :
    6 < ("ab cdef" : String).length ∧ (trimText "ab cdef" 6).length ≠ 6 := by
  constructor
  · decide
  · decide

/-- C2, amended: within budget the text is returned unchanged; over budget the
result is the first `n - 3` characters, whitespace-trimmed, followed by
`"..."`, so it ends in `"..."` and has length at most `max n 3` (not always
exactly `n`). -/
theorem trimText_spec (s : String) (n : Nat) :
    (s.length ≤ n → trimText s n = s) ∧
      (n < s.length →
        trimText s n = jsTrim (jsSlice s 0 (n - 3)) ++ "..." ∧
          (trimText s n).length ≤ max n 3) :=
  ⟨fun h => trimText_of_le h,
   fun h => ⟨trimText_of_lt h, trimText_length_le s n⟩⟩

/-- Witness for C2 at concrete inputs on both sides of the budget. -/
theorem trimText_spec_witness :
    (trimText "ab" 5 = "ab") ∧
      (trimText "ab cdef" 6 = jsTrim (jsSlice "ab cdef" 0 3) ++ "..." ∧
        (trimText "ab cdef" 6).length ≤ max 6 3) :=
  ⟨(trimText_spec "ab" 5).1 (by decide),
   (trimText_spec "ab cdef" 6).2 (by decide)⟩

/-! ## C3: clampPage -/

/-- C3 fails as stated on NaN: `Math.max`/`Math.min` propagate NaN, so
`clampPage(NaN, 10)` is `NaN`, not 1. -/
theorem clampPage_nan_counterexample :
    clampPage JSNum.nan (JSNum.fin 10) = JSNum.nan ∧
      JSNum.nan ≠ JSNum.fin 1 := by
  constructor
  · decide
  · decide

/-- C3, amended: `clampPage(0, 10) = 1` and `clampPage(999, 10) = 10`; every
finite page is clamped to an integer in `[1, maxPage]` (pages ≤ 0 yield 1),
but `clampPage(NaN, 10)` is `NaN`, which propagates rather than being treated
as page 1. -/
theorem clampPage_spec :
    clampPage (JSNum.fin 0) (JSNum.fin 10) = JSNum.fin 1 ∧
      clampPage (JSNum.fin 999) (JSNum.fin 10) = JSNum.fin 10 ∧
      clampPage JSNum.nan (JSNum.fin 10) = JSNum.nan ∧
      ∀ (q : ℚ) (m : ℤ), 1 ≤ m →
        ∃ k : ℤ, clampPage (JSNum.fin q) (JSNum.fin (m : ℚ)) = JSNum.fin (k : ℚ) ∧
          1 ≤ k ∧ k ≤ m := by
  refine ⟨by decide, by decide, by decide, ?_⟩
  intro q m hm
  refine ⟨min (max 1 q.floor) m, ?_, ?_, ?_⟩
  · have hle : jsLe (JSNum.fin (m : ℚ)) (JSNum.fin 0) = false := by
      simp only [jsLe, decide_eq_false_iff_not, not_le]
      have : (1 : ℚ) ≤ (m : ℚ) := by exact_mod_cast hm
      linarith
    unfold clampPage
    rw [hle]
    simp only [Bool.false_eq_true, if_false, jsFloor, jsMax, jsMin, JSNum.fin.injEq]
    push_cast
    rfl
  · have h1 : (1 : ℤ) ≤ max 1 q.floor := le_max_left 1 q.floor
    omega
  · exact min_le_right _ m

/-- Witness for C3's quantified clause at a concrete fractional page. -/
theorem clampPage_spec_witness :
    ∃ k : ℤ, clampPage (JSNum.fin (7 / 2)) (JSNum.fin ((3 : ℤ) : ℚ)) = JSNum.fin (k : ℚ) ∧
      1 ≤ k ∧ k ≤ 3 :=
  clampPage_spec.2.2.2 (7 / 2) 3 (by norm_num)

/-! ## C5: the context builder is a pure function -/

/-- C5: `buildAssistantContext` is deterministic — identical argument records
produce identical output strings (the embedding is a pure function of the
record; the source reads no hidden state). -/
theorem buildAssistantContext_deterministic (o1 o2 : ContextBuilderOptions) (h : o1 = o2) :
    buildAssistantContext o1 = buildAssistantContext o2 := by
  rw [h]

/-- Witness for C5 at a concrete argument record. -/
theorem buildAssistantContext_deterministic_witness :
    buildAssistantContext { document := some fullSpanDoc, selectedText := some "hi" } =
      buildAssistantContext { document := some fullSpanDoc, selectedText := some "hi" } :=
  buildAssistantContext_deterministic _ _ rfl

/-! ## C4: summary generation and the clock -/

theorem generateDocumentSummary_generatedAt (content : String) (chapters : List Chapter)
    (metadata : Option DocumentMetadata) (now : String) :
    (generateDocumentSummary content chapters metadata now).map DocumentSummary.generatedAt =
      if jsTrim content = "" then none else some now := by
  unfold generateDocumentSummary
  by_cases h : jsTrim content = ""
  · rw [if_pos h, if_pos h]; rfl
  · rw [if_neg h, if_neg h]; rfl

/-- C4 fails as stated: the source stamps `generatedAt` with
`new Date().toISOString()`, so two calls on identical `(content, chapters,
metadata)` at different instants differ in that field. -/
theorem generateDocumentSummary_clock_counterexample :
    generateDocumentSummary "hello" [] none "2024-01-01T00:00:00.000Z" ≠
      generateDocumentSummary "hello" [] none "2024-01-01T00:00:01.000Z" := by
  intro h
  have h2 := congrArg (Option.map DocumentSummary.generatedAt) h
  rw [generateDocumentSummary_generatedAt, generateDocumentSummary_generatedAt] at h2
  have hne : ¬(jsTrim "hello" = "") := by decide
  rw [if_neg hne, if_neg hne] at h2
  exact absurd h2 (by decide)

/-- C4, amended: every summary field except `generatedAt` is a deterministic
function of `(content, chapters, metadata)` — two calls on identical inputs
agree on `gist`, `sections` and `keywords` (and on definedness), differing
only in the recorded generation time. -/
theorem generateDocumentSummary_deterministic (content : String) (chapters : List Chapter)
    (metadata : Option DocumentMetadata) (now1 now2 : String) :
    (generateDocumentSummary content chapters metadata now1).map
        (fun s => (s.gist, s.sections, s.keywords)) =
      (generateDocumentSummary content chapters metadata now2).map
        (fun s => (s.gist, s.sections, s.keywords)) := by
  unfold generateDocumentSummary
  by_cases h : jsTrim content = ""
  · rw [if_pos h, if_pos h]
  · rw [if_neg h, if_neg h]
    rfl

/-! ## C6: the orchestrator's offline fallback -/

/-- C6: when the remote completion call throws, `generate` still returns an
`AIResponse` (the error is absorbed); its response text contains the literal
substring "offline", contains the decimal rendering of the computed context's
length, carries that context, and the response is appended to the
conversation history. -/
theorem offlineNotice_sub_aux (err fb ctx : String) :
    "offline".data <:+: (generateOfflineNotice err ++ "\n\n" ++ fallbackOfflineResponse fb ctx).data := by
  have h0 : "offline".data <:+: "Note: Falling back to offline mode (".data := by decide
  have hresp : (generateOfflineNotice err ++ "\n\n" ++ fallbackOfflineResponse fb ctx).data =
      "Note: Falling back to offline mode (".data ++
        ((if err = "" then "unknown error" else err).data ++ (").".data ++
          ("\n\n".data ++ (fallbackOfflineResponse fb ctx).data))) := by
    simp only [generateOfflineNotice, String.data_append, List.append_assoc]
  rw [hresp]
  exact subOfAppendLeft _ h0

theorem ctxLength_sub_aux (err fb ctx : String) :
    (toString ctx.length).data <:+:
      (generateOfflineNotice err ++ "\n\n" ++ fallbackOfflineResponse fb ctx).data := by
  refine ⟨"Note: Falling back to offline mode (".data ++
    (if err = "" then "unknown error" else err).data ++ ").".data ++ "\n\n".data ++
    "Temporary offline response:\n\n".data ++ fb.data ++ "\n\nBased on context length ".data,
    " characters.".data, ?_⟩
  simp only [generateOfflineNotice, fallbackOfflineResponse, String.data_append,
    List.append_assoc]

theorem generate_offline_fallback (args : AssistantGenerateArgs) (history : List AIResponse)
    (err newId now : String) :
    "offline".data <:+: (generate args history (Except.error err) newId now).1.response.data ∧
      (toString (generate args history (Except.error err) newId now).1.context.length).data <:+:
        (generate args history (Except.error err) newId now).1.response.data ∧
      (generate args history (Except.error err) newId now).1.context =
        buildAssistantContext
          { document := args.document
            selectedText := args.selectedText
            currentPage := args.currentPage
            extraContext := args.contextText
            references := none
            useExtendedContext := args.useExtendedContext } ∧
      (generate args history (Except.error err) newId now).2 =
        history ++ [(generate args history (Except.error err) newId now).1] := by
  refine ⟨?_, ?_, rfl, rfl⟩
  · exact offlineNotice_sub_aux err (buildPromptForMode (args.mode.getD Mode.chat) args.query)
      (buildAssistantContext
        { document := args.document
          selectedText := args.selectedText
          currentPage := args.currentPage
          extraContext := args.contextText
          references := none
          useExtendedContext := args.useExtendedContext })
  · exact ctxLength_sub_aux err (buildPromptForMode (args.mode.getD Mode.chat) args.query)
      (buildAssistantContext
        { document := args.document
          selectedText := args.selectedText
          currentPage := args.currentPage
          extraContext := args.contextText
          references := none
          useExtendedContext := args.useExtendedContext })

/-! ## C9: concept frequency and importance -/

theorem buildConcepts_mem (content : String) (ids : Nat → String) :
    ∀ (l : List (List Char × Nat)) (k : Nat) (c : Concept),
      c ∈ buildConcepts content ids l k →
      2 < c.frequency ∧ c.importance = conceptImportance c.frequency := by
  intro l
  induction l with
  | nil =>
    intro k c h
    rw [buildConcepts] at h
    exact absurd h (List.not_mem_nil c)
  | cons p rest ih =>
    intro k c h
    obtain ⟨term, freq⟩ := p
    rw [buildConcepts] at h
    by_cases hf : freq > 2
    · rw [if_pos hf] at h
      rcases List.mem_cons.mp h with hc | hc
      · subst hc
        exact ⟨hf, rfl⟩
      · exact ih _ _ hc
    · rw [if_neg hf] at h
      exact ih _ _ h

/-- C9: every extracted concept has frequency above 2 and importance equal to
`clamp(floor(frequency / 2), 1, 10)`, hence importance lies in `[1, 10]`; the
importance formula is non-decreasing in frequency. -/
theorem extractConcepts_importance :
    (∀ (content : String) (ids : Nat → String) (c : Concept),
        c ∈ extractConcepts content ids →
        2 < c.frequency ∧ c.importance = conceptImportance c.frequency ∧
          1 ≤ c.importance ∧ c.importance ≤ 10) ∧
      ∀ f1 f2 : Nat, f1 ≤ f2 → conceptImportance f1 ≤ conceptImportance f2 := by
  constructor
  · intro content ids c h
    have h2 := buildConcepts_mem content ids _ 0 c h
    refine ⟨h2.1, h2.2, ?_, ?_⟩
    · rw [h2.2]; unfold conceptImportance; omega
    · rw [h2.2]; unfold conceptImportance; omega
  · intro f1 f2 h
    unfold conceptImportance
    have hd : f1 / 2 ≤ f2 / 2 := Nat.div_le_div_right h
    omega

/-- Witness for C9 on the document `"test test test"`, whose one concept has
frequency 3 and importance 1. -/
theorem extractConcepts_importance_witness :
    2 < sampleConcept.frequency ∧
      sampleConcept.importance = conceptImportance sampleConcept.frequency ∧
      1 ≤ sampleConcept.importance ∧ sampleConcept.importance ≤ 10 :=
  extractConcepts_importance.1 "test test test" sampleIds sampleConcept (by decide)

/-! ## C10: chapter context without a current page -/

/-- C10 fails as stated: a non-PDF document with non-empty content and a
non-empty chapter list whose first chapter spans zero characters produces no
chapter-context segment, because the empty slice is falsy. -/
theorem buildSegments_emptySpan_counterexample :
    emptySpanDoc.type ≠ DocType.pdf ∧ emptySpanDoc.content ≠ "" ∧
      emptySpanDoc.chapters ≠ [] ∧
      buildSegments { document := some emptySpanDoc } =
        ["DOCUMENT: \"t\"", "VISIBLE CONTEXT:\nhello"] ∧
      (buildSegments { document := some emptySpanDoc }).all
        (fun s => !(("CHAPTER CONTEXT:\n" : String).data.isPrefixOf s.data)) = true := by
  refine ⟨by decide, by decide, by decide, by decide, by decide⟩

/-- C10, amended: for a non-PDF document with non-empty content, a non-empty
chapter list and no current page, `matchChapterByPage` yields the first
chapter, and the built context contains a chapter-context segment for that
chapter provided its content slice is non-empty (an empty slice is falsy and
suppresses the segment). -/
theorem buildSegments_chapter_segment (doc : Document)
    (selectedText extraContext : Option String) (references : Option (List Reference))
    (ext : Option Bool) (hpdf : doc.type ≠ DocType.pdf) (hcontent : doc.content ≠ "")
    (c0 : Chapter) (rest : List Chapter) (hch : doc.chapters = c0 :: rest)
    (hslice : jsSlice doc.content c0.startPosition c0.endPosition ≠ "") :
    matchChapterByPage doc none = some c0 ∧
      ("CHAPTER CONTEXT:\n" ++
          trimText (jsSlice doc.content c0.startPosition c0.endPosition)
            (if ext.getD false then 1400 else 600)) ∈
        buildSegments
          { document := some doc
            selectedText := selectedText
            currentPage := none
            extraContext := extraContext
            references := references
            useExtendedContext := ext } := by
  have hmatch : matchChapterByPage doc none = some c0 := by
    unfold matchChapterByPage
    rw [if_neg (by rw [hch]; exact List.cons_ne_nil c0 rest)]
    rw [hch]
    rfl
  refine ⟨hmatch, ?_⟩
  have hcc : extractChapterSlice doc none ⟨if ext.getD false then 1400 else 600⟩ =
      some (trimText (jsSlice doc.content c0.startPosition c0.endPosition)
        (if ext.getD false then 1400 else 600)) := by
    unfold extractChapterSlice
    rw [if_neg hcontent]
    rw [if_neg (by intro hand; exact hpdf hand.1)]
    rw [hmatch]
  have hne := trimText_ne_empty hslice (if ext.getD false then 1400 else 600)
  simp only [buildSegments, segOpt, hcc, List.mem_append]
  rw [if_neg hne]
  simp

/-- Witness for C10's amended theorem on a concrete document whose first
chapter spans the whole content. -/
theorem buildSegments_chapter_segment_witness :
    matchChapterByPage fullSpanDoc none =
        some { id := "c", title := "T", startPosition := 0, endPosition := 5,
               wordCount := 1, concepts := [] } ∧
      ("CHAPTER CONTEXT:\n" ++ trimText (jsSlice fullSpanDoc.content 0 5) 600) ∈
        buildSegments
          { document := some fullSpanDoc
            selectedText := none
            currentPage := none
            extraContext := none
            references := none
            useExtendedContext := none } :=
  buildSegments_chapter_segment fullSpanDoc none none none none (by decide) (by decide)
    { id := "c", title := "T", startPosition := 0, endPosition := 5,
      wordCount := 1, concepts := [] } [] rfl (by decide)

/-! ## C7: the ten-page PDF visible-context window -/

theorem string_ne_empty_of_length {s : String} (h : 0 < s.length) : s ≠ "" := by
  intro hc
  rw [hc] at h
  exact absurd h (by decide)

theorem extractPdfRange_tenPagePdf (content : String) (hne : content ≠ "") :
    extractPdfRange (tenPagePdf content) 4 6 900 =
      some (trimText (jsSlice content 300 600) 900) := by
  have h4 : clampPageFin ((4 : Nat) : ℚ) 10 = 4 := by decide
  have h6 : clampPageFin ((6 : Nat) : ℚ) 10 = 6 := by decide
  have hL : ([0, 100, 200, 300, 400, 500, 600, 700, 800, 900, 1000] :
      List Nat)[clampPageFin (4 : ℚ) 10 - 1]?.getD 0 = 300 := rfl
  have hR : ∀ n : Nat, ([0, 100, 200, 300, 400, 500, 600, 700, 800, 900, 1000] :
      List Nat)[clampPageFin (6 : ℚ) 10]?.getD n = 600 := fun _ => rfl
  unfold extractPdfRange tenPagePdf
  simp only [Option.some_bind, List.length_cons, List.length_nil]
  norm_num [hne]
  refine ⟨by decide, by decide, ?_, ?_⟩
  · rw [hL, hR]
    decide
  · rw [hL, hR]

/-- C7: on a ten-page PDF with `pageOffsets = [0, 100, ..., 1000]` and
`currentPage = 5`, the visible-context window is the content slice for pages
4–6 — characters `[300, 600)` — trimmed to at most 900 characters (and since
that slice has at most 300 characters, the trim is the identity). -/
theorem extractVisibleContext_tenPagePdf (content : String) (h : 300 < content.length) :
    extractVisibleContext (tenPagePdf content) (some 5) { radiusPages := 1, maxChars := 900 } =
        some (trimText (jsSlice content 300 600) 900) ∧
      trimText (jsSlice content 300 600) 900 = jsSlice content 300 600 := by
  have hne : content ≠ "" := by
    intro hc
    rw [hc] at h
    exact absurd h (by decide)
  have hlen : (jsSlice content 300 600).length = min 300 (content.length - 300) := by
    rw [jsSlice_length]
  have hpos : 0 < (jsSlice content 300 600).length := by omega
  have hid : trimText (jsSlice content 300 600) 900 = jsSlice content 300 600 :=
    trimText_of_le (by omega)
  refine ⟨?_, hid⟩
  have hsne : trimText (jsSlice content 300 600) 900 ≠ "" := by
    rw [hid]
    exact string_ne_empty_of_length hpos
  have h5 : clampPageFin (5 : ℚ) 10 = 5 := by decide
  have hrange := extractPdfRange_tenPagePdf content hne
  unfold tenPagePdf at hrange
  unfold extractVisibleContext tenPagePdf
  rw [if_neg hne]
  simp only [Option.some_bind, Option.getD_some, List.length_cons, List.length_nil]
  norm_num [h5]
  rw [hrange]
  rw [if_neg (show ¬([0, 100, 200, 300, 400, 500, 600, 700, 800, 900, 1000] : List Nat) = []
    from by decide)]
  unfold pdfAttempt
  dsimp only
  rw [if_neg hsne]

set_option maxRecDepth 10000 in
/-- Witness for C7 at a concrete 301-character content. -/
theorem extractVisibleContext_tenPagePdf_witness :
    extractVisibleContext (tenPagePdf ⟨List.replicate 301 'x'⟩) (some 5)
        { radiusPages := 1, maxChars := 900 } =
        some (trimText (jsSlice ⟨List.replicate 301 'x'⟩ 300 600) 900) ∧
      trimText (jsSlice (⟨List.replicate 301 'x'⟩ : String) 300 600) 900 =
        jsSlice ⟨List.replicate 301 'x'⟩ 300 600 :=
  extractVisibleContext_tenPagePdf ⟨List.replicate 301 'x'⟩ (by decide)

end StudyBuddy
